import Mathlib

/-!
Verification of the table-to-chart-geometry transformer of
`TriNetXRelativeRiskGraphs.py`.

The script's core (lines 46-47 and 83-98) sanitizes the editable table
(`dropna` on the Cohort Name column, then `astype(str).str.strip()`) and
then runs a single loop over the rows that classifies each row as a group
header (`name.startswith("##")`) or a data row, building four parallel
lists: `plot_labels`, `plot_values`, `group_boundaries`, `group_labels`.
Bar positions are `np.arange(num_bars)` (line 119).

We embed the pipeline shallowly. Strings are lists of characters, so that
the Python string primitives become structurally recursive Lean functions:
`str.strip()` is `pyStrip` (drop whitespace at both ends),
`name.startswith("##")` is `startsWithHashHash`, and
`name.replace("##", "")` — which replaces every non-overlapping
occurrence, left to right — is `replaceHashHash`. A raw table row is an
optional cohort name (a cleared cell is `none`, removed by `dropna`) plus
an optional numeric relative-risk value (None/NaN cells are `none`); the
numeric grid cell is modelled as a rational, so the guarded `float()` on a
present value is the identity.
-/

namespace TriNetX

/-- Strings of the table, as character lists. -/
abbrev Str := List Char

/-- Python `str.strip()`: remove leading and trailing whitespace. -/
def pyStrip (s : Str) : Str :=
  ((s.dropWhile Char.isWhitespace).reverse.dropWhile Char.isWhitespace).reverse

/-- Python `name.startswith("##")`. -/
def startsWithHashHash : Str → Bool
  | '#' :: '#' :: _ => true
  | _ => false

/-- Python `name.replace("##", "")`: remove every non-overlapping
occurrence of `##`, scanning left to right. -/
def replaceHashHash : Str → Str
  | '#' :: '#' :: cs => replaceHashHash cs
  | c :: cs => c :: replaceHashHash cs
  | [] => []

/-- A row of the editable table before sanitization: the Cohort Name cell
may be empty (`none`) and the Relative Risk cell may be missing
(`none`, i.e. None/NaN). -/
structure RawRow where
  cohortName : Option Str
  relativeRisk : Option ℚ
deriving DecidableEq

/-- A row after lines 46-47: `data.dropna(subset=["Cohort Name"])` removed
the rows with a null name, and the surviving names were stripped. -/
structure SanRow where
  name : Str
  rr : Option ℚ
deriving DecidableEq

/-- Lines 46-47: drop the rows whose Cohort Name is null, strip the rest. -/
def sanitize (rows : List RawRow) : List SanRow :=
  rows.filterMap (fun r => r.cohortName.map (fun n => ⟨pyStrip n, r.relativeRisk⟩))

/-- The four parallel lists built by the parse loop (lines 83-98). -/
structure ParseState where
  plot_labels : List Str
  plot_values : List ℚ
  group_boundaries : List Nat
  group_labels : List Str
deriving DecidableEq

/-- Lines 83-86: the four lists start empty. -/
def initState : ParseState := ⟨[], [], [], []⟩

/-- One iteration of the loop (lines 89-98): a name starting with `##`
records a group (boundary = number of bars so far, label =
`name.replace("##", "").strip()`); otherwise, if the Relative Risk value
is present (`pd.notnull`), a bar is appended. -/
def parseStep (s : ParseState) (r : SanRow) : ParseState :=
  if startsWithHashHash r.name then
    { s with
      group_boundaries := s.group_boundaries ++ [s.plot_labels.length],
      group_labels := s.group_labels ++ [pyStrip (replaceHashHash r.name)] }
  else
    match r.rr with
    | some v =>
      { s with
        plot_labels := s.plot_labels ++ [r.name],
        plot_values := s.plot_values ++ [v] }
    | none => s

/-- The loop over all sanitized rows (`for i, row in data.iterrows()`). -/
def parseLoop (s : ParseState) : List SanRow → ParseState
  | [] => s
  | r :: rs => parseLoop (parseStep s r) rs

/-- The whole transform: sanitize (lines 46-47), then parse (lines 83-98). -/
def process (rows : List RawRow) : ParseState :=
  parseLoop initState (sanitize rows)

/-- `num_bars = len(plot_labels)` (line 100). -/
def num_bars (rows : List RawRow) : Nat :=
  (process rows).plot_labels.length

/-- `indices = np.arange(num_bars)` (line 119): the bar positions. -/
def indices (rows : List RawRow) : List Nat :=
  List.range (num_bars rows)

/-! ### Row-level characterizations of the loop

Each row contributes independently: these per-row functions say what a
sanitized (resp. raw) row adds to each output list, and the lemmas below
prove that the loop equals their `filterMap`. -/

/-- The bar label a sanitized row contributes, if any. -/
def barLabelSan (r : SanRow) : Option Str :=
  if startsWithHashHash r.name then none
  else r.rr.map (fun _ => r.name)

/-- The bar value a sanitized row contributes, if any. -/
def barValueSan (r : SanRow) : Option ℚ :=
  if startsWithHashHash r.name then none else r.rr

/-- The group label a sanitized row contributes, if any. -/
def headerLabelSan (r : SanRow) : Option Str :=
  if startsWithHashHash r.name then some (pyStrip (replaceHashHash r.name))
  else none

/-- The group boundaries contributed by a row list when `n` bars have
already been emitted. -/
def boundsOf (n : Nat) : List SanRow → List Nat
  | [] => []
  | r :: rs =>
    if startsWithHashHash r.name then n :: boundsOf n rs
    else
      match r.rr with
      | some _ => boundsOf (n + 1) rs
      | none => boundsOf n rs

/-- The bar label a raw table row contributes, if any: present name, not a
header after stripping, present value. -/
def barLabelRaw (r : RawRow) : Option Str :=
  match r.cohortName with
  | some n =>
    if startsWithHashHash (pyStrip n) then none
    else r.relativeRisk.map (fun _ => pyStrip n)
  | none => none

/-- The bar value a raw table row contributes, if any. -/
def barValueRaw (r : RawRow) : Option ℚ :=
  match r.cohortName with
  | some n => if startsWithHashHash (pyStrip n) then none else r.relativeRisk
  | none => none

/-- The group label a raw table row contributes, if any. -/
def headerLabelRaw (r : RawRow) : Option Str :=
  match r.cohortName with
  | some n =>
    if startsWithHashHash (pyStrip n) then
      some (pyStrip (replaceHashHash (pyStrip n)))
    else none
  | none => none

/-- Whether a raw table row is classified as a group-header row. -/
def isHeaderRaw (r : RawRow) : Bool :=
  match r.cohortName with
  | some n => startsWithHashHash (pyStrip n)
  | none => false

/-- The output of the rendering stage (lines 100-245). The
`placeholderMessage` form exists only as spec vocabulary: no branch of the
script produces it. -/
inductive Rendered where
  | chart (bars : Nat) (labels : List Str) (values : List ℚ)
      (boundaries : List Nat) : Rendered
  | placeholderMessage (msg : Str) : Rendered
deriving DecidableEq

/-- Lines 100-245: the figure is constructed from the parsed lists and
handed to `st.pyplot` unconditionally; there is no empty-table branch. -/
def render (rows : List RawRow) : Rendered :=
  .chart (num_bars rows) (process rows).plot_labels (process rows).plot_values
    (process rows).group_boundaries

/-- Whether a render produced the placeholder message. -/
def isPlaceholderMessage : Rendered → Bool
  | .placeholderMessage _ => true
  | .chart _ _ _ _ => false

/-! ### Loop lemmas -/

lemma parseLoop_eq (rows : List SanRow) : ∀ s : ParseState,
    parseLoop s rows =
      ⟨s.plot_labels ++ rows.filterMap barLabelSan,
       s.plot_values ++ rows.filterMap barValueSan,
       s.group_boundaries ++ boundsOf s.plot_labels.length rows,
       s.group_labels ++ rows.filterMap headerLabelSan⟩ := by
  induction rows with
  | nil => intro s; simp [parseLoop, boundsOf]
  | cons r rs ih =>
    intro s
    by_cases hs : startsWithHashHash r.name
    · simp only [parseLoop, parseStep, hs, if_true, ih, List.filterMap_cons,
        boundsOf, barLabelSan, barValueSan, headerLabelSan]
      simp [List.append_assoc]
    · cases hrr : r.rr with
      | some v =>
        simp only [parseLoop, parseStep, hs, if_false, hrr, ih,
          List.filterMap_cons, boundsOf, barLabelSan, barValueSan,
          headerLabelSan]
        simp [hs, hrr, List.append_assoc]
      | none =>
        simp only [parseLoop, parseStep, hs, if_false, hrr, ih,
          List.filterMap_cons, boundsOf, barLabelSan, barValueSan,
          headerLabelSan]
        simp [hs, hrr]

lemma sanitize_append (xs ys : List RawRow) :
    sanitize (xs ++ ys) = sanitize xs ++ sanitize ys := by
  simp [sanitize]

lemma sanitize_filterMap_barLabel (rows : List RawRow) :
    (sanitize rows).filterMap barLabelSan = rows.filterMap barLabelRaw := by
  induction rows with
  | nil => rfl
  | cons r rs ih =>
    cases hc : r.cohortName with
    | none =>
      simp only [sanitize] at ih ⊢
      simp [List.filterMap_cons, hc, barLabelRaw, ih]
    | some n =>
      simp only [sanitize, List.filterMap_cons, hc, Option.map_some]
      simp only [sanitize] at ih
      simp [List.filterMap_cons, barLabelSan, barLabelRaw, hc, ih]

lemma sanitize_filterMap_barValue (rows : List RawRow) :
    (sanitize rows).filterMap barValueSan = rows.filterMap barValueRaw := by
  induction rows with
  | nil => rfl
  | cons r rs ih =>
    cases hc : r.cohortName with
    | none =>
      simp only [sanitize] at ih ⊢
      simp [List.filterMap_cons, hc, barValueRaw, ih]
    | some n =>
      simp only [sanitize, List.filterMap_cons, hc, Option.map_some]
      simp only [sanitize] at ih
      simp [List.filterMap_cons, barValueSan, barValueRaw, hc, ih]

lemma sanitize_filterMap_headerLabel (rows : List RawRow) :
    (sanitize rows).filterMap headerLabelSan = rows.filterMap headerLabelRaw := by
  induction rows with
  | nil => rfl
  | cons r rs ih =>
    cases hc : r.cohortName with
    | none =>
      simp only [sanitize] at ih ⊢
      simp [List.filterMap_cons, hc, headerLabelRaw, ih]
    | some n =>
      simp only [sanitize, List.filterMap_cons, hc, Option.map_some]
      simp only [sanitize] at ih
      simp [List.filterMap_cons, headerLabelSan, headerLabelRaw, hc, ih]

lemma process_plot_labels (rows : List RawRow) :
    (process rows).plot_labels = rows.filterMap barLabelRaw := by
  simp [process, parseLoop_eq, initState, sanitize_filterMap_barLabel]

lemma process_plot_values (rows : List RawRow) :
    (process rows).plot_values = rows.filterMap barValueRaw := by
  simp [process, parseLoop_eq, initState, sanitize_filterMap_barValue]

lemma process_group_labels (rows : List RawRow) :
    (process rows).group_labels = rows.filterMap headerLabelRaw := by
  simp [process, parseLoop_eq, initState, sanitize_filterMap_headerLabel]

lemma process_group_boundaries (rows : List RawRow) :
    (process rows).group_boundaries = boundsOf 0 (sanitize rows) := by
  simp [process, parseLoop_eq, initState]

lemma boundsOf_append (xs ys : List SanRow) : ∀ n : Nat,
    boundsOf n (xs ++ ys) =
      boundsOf n xs ++ boundsOf (n + (xs.filterMap barLabelSan).length) ys := by
  induction xs with
  | nil => intro n; simp [boundsOf]
  | cons r rs ih =>
    intro n
    by_cases hs : startsWithHashHash r.name
    · simp [boundsOf, hs, barLabelSan, List.filterMap_cons, ih]
    · cases hrr : r.rr with
      | some v =>
        simp [boundsOf, hs, hrr, barLabelSan, List.filterMap_cons, ih,
          Nat.add_assoc, Nat.add_comm 1]
      | none =>
        simp [boundsOf, hs, hrr, barLabelSan, List.filterMap_cons, ih]

lemma boundsOf_length (l : List SanRow) : ∀ n : Nat,
    (boundsOf n l).length = (l.filterMap headerLabelSan).length := by
  induction l with
  | nil => intro n; simp [boundsOf]
  | cons r rs ih =>
    intro n
    by_cases hs : startsWithHashHash r.name
    · simp [boundsOf, hs, headerLabelSan, List.filterMap_cons, ih]
    · cases hrr : r.rr with
      | some v => simp [boundsOf, hs, hrr, headerLabelSan, List.filterMap_cons, ih]
      | none => simp [boundsOf, hs, hrr, headerLabelSan, List.filterMap_cons, ih]

lemma length_filterMap_headerLabelRaw (rows : List RawRow) :
    (rows.filterMap headerLabelRaw).length =
      (rows.filter (fun r => isHeaderRaw r)).length := by
  induction rows with
  | nil => rfl
  | cons r rs ih =>
    cases hc : r.cohortName with
    | none => simp [List.filterMap_cons, List.filter_cons, headerLabelRaw, isHeaderRaw, hc, ih]
    | some n =>
      by_cases hs : startsWithHashHash (pyStrip n)
      · simp [List.filterMap_cons, List.filter_cons, headerLabelRaw, isHeaderRaw, hc, hs, ih]
      · simp [List.filterMap_cons, List.filter_cons, headerLabelRaw, isHeaderRaw, hc, hs, ih]

lemma bar_label_at (pre suf : List RawRow) (r : RawRow) (lbl : Str)
    (h : barLabelRaw r = some lbl) :
    (process (pre ++ r :: suf)).plot_labels[(pre.filterMap barLabelRaw).length]?
      = some lbl := by
  rw [process_plot_labels, List.filterMap_append, List.filterMap_cons, h,
    List.getElem?_append_right (Nat.le_refl _)]
  simp

lemma header_label_at (pre suf : List RawRow) (r : RawRow) (lbl : Str)
    (h : headerLabelRaw r = some lbl) :
    (process (pre ++ r :: suf)).group_labels[(pre.filterMap headerLabelRaw).length]?
      = some lbl := by
  rw [process_group_labels, List.filterMap_append, List.filterMap_cons, h,
    List.getElem?_append_right (Nat.le_refl _)]
  simp

/-! ### Claims -/

/-- Claim C1, counterexample: the claim says a Data row whose label is
blank is silently dropped and produces no Bar, but only null Cohort Name
cells are dropped (`dropna`): a whitespace-only non-null name survives,
strips to the empty string, and still emits a Bar when its value is
present. The row `(Cohort Name = "  ", Relative Risk = 1)` produces
exactly one Bar, labelled by the empty string. -/
theorem C1_counterexample :
    (process [⟨some "  ".toList, some 1⟩]).plot_labels = ["".toList] ∧
      num_bars [⟨some "  ".toList, some 1⟩] = 1 := by decide

/-- Claim C1, amended: a row contributes a Bar iff its Cohort Name cell is
non-null, its stripped name is not a `##` header, and its Relative Risk
value is present; a blank-but-non-null label still contributes a Bar. The
emitted labels and values are exactly the per-row contributions in input
order. -/
theorem C1_bar_validity (rows : List RawRow) :
    (process rows).plot_labels = rows.filterMap barLabelRaw ∧
      (process rows).plot_values = rows.filterMap barValueRaw ∧
      ∀ r : RawRow, (barLabelRaw r).isSome =
        (r.cohortName.isSome && !(isHeaderRaw r) && r.relativeRisk.isSome) := by
  refine ⟨process_plot_labels rows, process_plot_values rows, fun r => ?_⟩
  cases hc : r.cohortName with
  | none => simp [barLabelRaw, isHeaderRaw, hc]
  | some n =>
    by_cases hs : startsWithHashHash (pyStrip n)
    · simp [barLabelRaw, isHeaderRaw, hc, hs]
    · cases hrr : r.relativeRisk <;> simp [barLabelRaw, isHeaderRaw, hc, hs, hrr]

/-- Claim C2: for a header row, the recorded group boundary equals the
number of Bars emitted before it; the Bar at that position (if any) is
the first Bar emitted after the header, and when no Bar follows, the
boundary equals the total Bar count. -/
theorem C2_boundary (pre suf : List RawRow) (r : RawRow)
    (hr : isHeaderRaw r = true) :
    (process (pre ++ r :: suf)).group_boundaries[(pre.filterMap headerLabelRaw).length]?
        = some (pre.filterMap barLabelRaw).length ∧
      (process (pre ++ r :: suf)).plot_labels[(pre.filterMap barLabelRaw).length]?
        = (suf.filterMap barLabelRaw).head? ∧
      (suf.filterMap barLabelRaw = [] →
        (pre.filterMap barLabelRaw).length
          = (process (pre ++ r :: suf)).plot_labels.length) := by
  obtain ⟨cn, rr⟩ := r
  cases hc : cn with
  | none => simp [isHeaderRaw, hc] at hr
  | some n =>
    subst hc
    have hs : startsWithHashHash (pyStrip n) = true := by
      simpa [isHeaderRaw] using hr
    have hnone : barLabelRaw ⟨some n, rr⟩ = none := by simp [barLabelRaw, hs]
    have hsan : sanitize ((⟨some n, rr⟩ : RawRow) :: suf)
        = ⟨pyStrip n, rr⟩ :: sanitize suf := by
      simp [sanitize, List.filterMap_cons]
    refine ⟨?_, ?_, ?_⟩
    · rw [process_group_boundaries, sanitize_append, hsan, boundsOf_append]
      have hlen : (pre.filterMap headerLabelRaw).length
          = (boundsOf 0 (sanitize pre)).length := by
        rw [boundsOf_length, sanitize_filterMap_headerLabel]
      rw [hlen, List.getElem?_append_right (Nat.le_refl _)]
      simp [boundsOf, hs, sanitize_filterMap_barLabel]
    · rw [process_plot_labels, List.filterMap_append, List.filterMap_cons, hnone,
        List.getElem?_append_right (Nat.le_refl _), List.head?_eq_getElem?]
      simp
    · intro hsuf
      rw [process_plot_labels, List.filterMap_append, List.filterMap_cons, hnone,
        hsuf]
      simp

/-- Witness for C2 at a concrete table: one data row, one header row, one
data row; the header's boundary is 1, the count of bars before it. -/
theorem C2_boundary_witness :
    (process ([⟨some "A".toList, some 1⟩]
        ++ (⟨some "##G".toList, none⟩ : RawRow) :: [⟨some "B".toList, some 2⟩])).group_boundaries[(([⟨some "A".toList, some 1⟩] : List RawRow).filterMap headerLabelRaw).length]?
      = some (([⟨some "A".toList, some 1⟩] : List RawRow).filterMap barLabelRaw).length :=
  (C2_boundary [⟨some "A".toList, some 1⟩] [⟨some "B".toList, some 2⟩]
    ⟨some "##G".toList, none⟩ (by decide)).1

/-- Claim C3: the bar positions `np.arange(num_bars)` are `0, 1, ...`:
position `k` holds the value `k`, there is one position per emitted Bar,
and the positions are strictly increasing in emission order. -/
theorem C3_positions (rows : List RawRow) :
    (indices rows).length = num_bars rows ∧
      (∀ k : Nat, (indices rows)[k]? = if k < num_bars rows then some k else none) ∧
      List.Pairwise (· < ·) (indices rows) := by
  refine ⟨List.length_range _, fun k => ?_, List.pairwise_lt_range _⟩
  by_cases hk : k < num_bars rows
  · simp [indices, List.getElem?_range hk, hk]
  · rw [indices, List.getElem?_eq_none
      (by simpa [List.length_range] using Nat.le_of_not_lt hk)]
    simp [hk]

/-- Claim C4: exactly one GroupMarker is emitted per Header row: both the
group-label list and the group-boundary list have as many entries as
there are header rows in the input. -/
theorem C4_groupMarker_count (rows : List RawRow) :
    (process rows).group_labels.length
        = (rows.filter (fun r => isHeaderRaw r)).length ∧
      (process rows).group_boundaries.length
        = (rows.filter (fun r => isHeaderRaw r)).length := by
  constructor
  · rw [process_group_labels, length_filterMap_headerLabelRaw]
  · rw [process_group_boundaries, boundsOf_length, sanitize_filterMap_headerLabel,
      length_filterMap_headerLabelRaw]

/-- Claim C5, counterexample: the code computes the group label with
`name.replace("##", "").strip()`, which removes every occurrence of `##`,
not only the reserved leading marker: the header `##A##B` yields the
label `AB`, whereas stripping just the prefix would yield `A##B`. -/
theorem C5_counterexample :
    (process [⟨some "##A##B".toList, none⟩]).group_labels ≠ ["A##B".toList] ∧
      (process [⟨some "##A##B".toList, none⟩]).group_labels = ["AB".toList] := by
  decide

/-- Claim C5, amended: a Header row's displayed group label is the stripped
input label with every occurrence of `##` removed and the result stripped
again (for labels whose only `##` is the leading marker this coincides
with stripping the prefix, e.g. `##  Cardiac ` becomes `Cardiac`). -/
theorem C5_header_label (pre suf : List RawRow) (n : Str) (rr : Option ℚ)
    (h : startsWithHashHash (pyStrip n) = true) :
    (process (pre ++ (⟨some n, rr⟩ : RawRow) :: suf)).group_labels[(pre.filterMap headerLabelRaw).length]?
      = some (pyStrip (replaceHashHash (pyStrip n))) :=
  header_label_at pre suf ⟨some n, rr⟩ _ (by simp [headerLabelRaw, h])

/-- Witness for C5 at the spec's example: the header `##  Cardiac ` (with
extra surrounding whitespace) displays as `Cardiac`. -/
theorem C5_header_label_witness :
    (process (([] : List RawRow) ++ (⟨some " ##  Cardiac ".toList, none⟩ : RawRow) :: [])).group_labels[(([] : List RawRow).filterMap headerLabelRaw).length]?
      = some (pyStrip (replaceHashHash (pyStrip " ##  Cardiac ".toList))) :=
  C5_header_label [] [] " ##  Cardiac ".toList none (by decide)

/-- Claim C6: the transform is a pure, deterministic map from the row
sequence to the parsed lists: identical inputs give identical Bar and
GroupMarker sequences (and identical positions). -/
theorem C6_deterministic (rows₁ rows₂ : List RawRow) (h : rows₁ = rows₂) :
    process rows₁ = process rows₂ ∧ indices rows₁ = indices rows₂ ∧
      render rows₁ = render rows₂ := by
  subst h; exact ⟨rfl, rfl, rfl⟩

/-- Witness for C6 at a concrete table. -/
theorem C6_deterministic_witness :
    process [(⟨some "A".toList, some 1⟩ : RawRow)]
      = process [(⟨some "A".toList, some 1⟩ : RawRow)] :=
  (C6_deterministic [⟨some "A".toList, some 1⟩] [⟨some "A".toList, some 1⟩] rfl).1

/-- Claim C7, counterexample: the claim lists a blank label among the
malformed inputs that degrade to "the row contributes nothing", but a
blank-but-non-null Cohort Name with a present value does contribute: the
row `(Cohort Name = " ", Relative Risk = 2)` changes the output — it
emits a Bar labelled by the empty string — rather than contributing
nothing. -/
theorem C7_counterexample :
    process [⟨some " ".toList, some 2⟩] ≠ process [] ∧
      (process [⟨some " ".toList, some 2⟩]).plot_labels = ["".toList] := by
  decide

/-- Claim C7, amended: nothing is raised to the caller; the transform is a
total function, and a row with a null Cohort Name, or a non-header row
whose Relative Risk is missing, contributes nothing: the output equals
the output on the table without that row. (A blank-but-non-null label
with a present value is not malformed to the code: it contributes a
Bar.) -/
theorem C7_silent_degradation (pre suf : List RawRow) (r : RawRow)
    (h : r.cohortName = none ∨
      ∃ n, r.cohortName = some n ∧ startsWithHashHash (pyStrip n) = false ∧
        r.relativeRisk = none) :
    process (pre ++ r :: suf) = process (pre ++ suf) := by
  cases h with
  | inl hc =>
    have hsan : sanitize (pre ++ r :: suf) = sanitize (pre ++ suf) := by
      rw [sanitize_append, sanitize_append]
      simp [sanitize, List.filterMap_cons, hc]
    unfold process
    rw [hsan]
  | inr h =>
    obtain ⟨n, hc, hs, hrr⟩ := h
    have hsan : sanitize (pre ++ r :: suf)
        = sanitize pre ++ (⟨pyStrip n, none⟩ : SanRow) :: sanitize suf := by
      rw [sanitize_append]
      simp [sanitize, List.filterMap_cons, hc, hrr]
    unfold process
    rw [hsan, sanitize_append, parseLoop_eq, parseLoop_eq]
    simp [List.filterMap_cons, barLabelSan, barValueSan, headerLabelSan,
      boundsOf_append, boundsOf, hs]

/-- Witness for C7: a row with a null Cohort Name contributes nothing. -/
theorem C7_silent_degradation_witness :
    process (([] : List RawRow) ++ (⟨none, some 1⟩ : RawRow) :: [⟨some "A".toList, some 1⟩])
      = process (([] : List RawRow) ++ [⟨some "A".toList, some 1⟩]) :=
  C7_silent_degradation [] [⟨some "A".toList, some 1⟩] ⟨none, some 1⟩ (Or.inl rfl)

/-- Claim C8, counterexample: on the empty table the script still builds
and renders a (zero-bar) chart; it does not render a placeholder
message. -/
theorem C8_counterexample :
    render [] = Rendered.chart 0 [] [] [] ∧
      isPlaceholderMessage (render []) = false := by decide

/-- Claim C8, amended: there is no empty-table branch: for every input —
the empty table included — the script renders a chart built from the
parsed lists (zero bars when the table is empty), never a placeholder
message. -/
theorem C8_no_placeholder (rows : List RawRow) :
    isPlaceholderMessage (render rows) = false ∧
      render [] = Rendered.chart 0 [] [] [] :=
  ⟨rfl, by decide⟩

/-- Claim C9: names are stripped (line 47) before classification and
emission: a data row's Bar label is its input label stripped, and a row
whose stripped label starts with `##` — even with leading whitespace
before the `##` — is classified as a header and emits a group label. -/
theorem C9_strip_before_classify (pre suf : List RawRow) (n : Str)
    (rr : Option ℚ) :
    (startsWithHashHash (pyStrip n) = false → ∀ v : ℚ, rr = some v →
      (process (pre ++ (⟨some n, rr⟩ : RawRow) :: suf)).plot_labels[(pre.filterMap barLabelRaw).length]?
        = some (pyStrip n)) ∧
    (startsWithHashHash (pyStrip n) = true →
      (process (pre ++ (⟨some n, rr⟩ : RawRow) :: suf)).group_labels.length
        = (pre.filterMap headerLabelRaw).length + 1
          + (suf.filterMap headerLabelRaw).length) := by
  constructor
  · intro hs v hv
    exact bar_label_at pre suf ⟨some n, rr⟩ _ (by simp [barLabelRaw, hs, hv])
  · intro hs
    rw [process_group_labels, List.filterMap_append, List.filterMap_cons]
    simp [headerLabelRaw, hs]
    omega

/-- Witness for C9: the label `  ##G` (leading whitespace before `##`) is
classified as a header, and the data label ` X ` emits the Bar label `X`. -/
theorem C9_strip_before_classify_witness :
    (process (([] : List RawRow) ++ (⟨some " X ".toList, some 1⟩ : RawRow) :: [])).plot_labels[(([] : List RawRow).filterMap barLabelRaw).length]?
        = some (pyStrip " X ".toList) ∧
      (process (([] : List RawRow) ++ (⟨some "  ##G".toList, none⟩ : RawRow) :: [])).group_labels.length
        = (([] : List RawRow).filterMap headerLabelRaw).length + 1
          + (([] : List RawRow).filterMap headerLabelRaw).length :=
  ⟨(C9_strip_before_classify [] [] " X ".toList (some 1)).1 (by decide) 1 rfl,
    (C9_strip_before_classify [] [] "  ##G".toList none).2 (by decide)⟩

/-- Claim C10: the `if/elif` makes the two outputs mutually exclusive: a
header row never produces a Bar even when it carries a present Relative
Risk value — the bars are those of the table without the row, the value
is discarded, and the row contributes exactly one group label. -/
theorem C10_header_value_discarded (pre suf : List RawRow) (n : Str) (v : ℚ)
    (h : startsWithHashHash (pyStrip n) = true) :
    (process (pre ++ (⟨some n, some v⟩ : RawRow) :: suf)).plot_labels
        = (process (pre ++ suf)).plot_labels ∧
      (process (pre ++ (⟨some n, some v⟩ : RawRow) :: suf)).plot_values
        = (process (pre ++ suf)).plot_values ∧
      (process (pre ++ (⟨some n, some v⟩ : RawRow) :: suf)).group_labels.length
        = (process (pre ++ suf)).group_labels.length + 1 := by
  refine ⟨?_, ?_, ?_⟩
  · rw [process_plot_labels, process_plot_labels, List.filterMap_append,
      List.filterMap_cons, List.filterMap_append]
    simp [barLabelRaw, h]
  · rw [process_plot_values, process_plot_values, List.filterMap_append,
      List.filterMap_cons, List.filterMap_append]
    simp [barValueRaw, h]
  · rw [process_group_labels, process_group_labels, List.filterMap_append,
      List.filterMap_cons, List.filterMap_append]
    simp [headerLabelRaw, h]
    omega

/-- Witness for C10: a header row carrying the value 1 produces no Bar. -/
theorem C10_header_value_discarded_witness :
    (process (([] : List RawRow) ++ (⟨some "##G".toList, some 1⟩ : RawRow) :: [])).plot_labels
      = (process (([] : List RawRow) ++ [])).plot_labels :=
  (C10_header_value_discarded [] [] "##G".toList 1 (by decide)).1

end TriNetX
